import Mathlib

/-!
Verification of the pull-request aggregation pipeline of the tasks-cli
repository: a shallow embedding of `src/models/app/pull_request.py`,
`src/services/pull_requests/service.py`,
`src/infrastructure/oci_error_handling.py` and
`src/services/devops_service.py`, together with theorems about the
embedded definitions.

Modelling conventions:
 - Python dictionaries holding query parameters become association lists
   `List (String × OciVal)`.
 - Python `dict.get(key, default)` on a possibly-missing key becomes
   `Option.getD` on an `Option` field; a key that is present maps to
   `some`, an absent key to `none`.
 - A raised exception becomes `Except.error`; a Python function that can
   raise returns `Except`.
 - Python line counters are unbounded `int`, embedded as `Int`.
 - The vendor SDK client (`DevOpsClient`) is an external collaborator:
   it is embedded as a record of function parameters, quantified over in
   the theorems.
-/

set_option autoImplicit false

namespace TasksCli

/-- A value stored in a translated OCI query dictionary: the filter fields
are strings (`status`, `author`) or integers (`limit`). -/
inductive OciVal where
  | str (s : String)
  | int (n : Int)
  deriving DecidableEq, Repr

/-- Embedding of the dataclass `PullRequestFilter` of
`src/models/app/pull_request.py` (fields `status`, `limit`, `author` with
defaults `"OPEN"`, `10`, `None`). `limit` and `author` are `Option` so that
the `None`-dropping of `to_oci` is expressible. -/
structure PullRequestFilter where
  status : String := "OPEN"
  limit : Option Int := some 10
  author : Option String := none
  deriving DecidableEq, Repr

/-- Python `str.upper()` on the ASCII strings in play: upper-case each
character. -/
def pyUpper (s : String) : String := ⟨s.data.map Char.toUpper⟩

/-- Constructing a `PullRequestFilter` runs `__post_init__`, which replaces
`status` by `status.upper()`. -/
def PullRequestFilter.make (status : String := "OPEN") (limit : Option Int := some 10)
    (author : Option String := none) : PullRequestFilter :=
  { status := pyUpper status, limit := limit, author := author }

/-- Embedding of `PullRequestFilter.to_oci`: `asdict(self)` lists the
dataclass fields in declaration order (`status`, `limit`, `author`); the
comprehension renames each key through `field_mapping`
(status ↦ lifecycle_details, limit ↦ limit, author ↦ created_by) and drops
entries whose value is `None`. `status` is a plain `str` after
`__post_init__`, hence always present. -/
def PullRequestFilter.to_oci (f : PullRequestFilter) : List (String × OciVal) :=
  ([("lifecycle_details", some (OciVal.str f.status)),
    ("limit", f.limit.map OciVal.int),
    ("created_by", f.author.map OciVal.str)]).filterMap
    (fun kv => kv.2.map (fun v => (kv.1, v)))

/-- The keyword arguments forwarded by `list_pull_requests(self, repos,
**kwargs)` into `PullRequestFilter(**kwargs)`: each dataclass field may be
supplied (outer `some`) or left to its default (outer `none`). -/
structure ListKwargs where
  status : Option String := none
  limit : Option (Option Int) := none
  author : Option (Option String) := none
  deriving DecidableEq, Repr

/-- `PullRequestFilter(**kwargs)`: absent keywords fall back to the
dataclass defaults, then `__post_init__` upper-cases `status`. -/
def PullRequestFilter.ofKwargs (k : ListKwargs) : PullRequestFilter :=
  PullRequestFilter.make (k.status.getD "OPEN") (k.limit.getD (some 10)) (k.author.getD none)

/-- One entry of the `files` list of a diff payload; `file.get("lines_added", 0)`
is `lines_added.getD 0`. -/
structure DiffFile where
  lines_added : Option Int := none
  lines_deleted : Option Int := none
  deriving DecidableEq, Repr

/-- The `summary` object of a diff payload; each counter is read with
`summary.get(key, 0)`. -/
structure DiffSummary where
  lines_added : Option Int := none
  lines_deleted : Option Int := none
  total_changes : Option Int := none
  deriving DecidableEq, Repr

/-- A diff payload dictionary. `summary = some s` models the key `summary`
being present with value `s`; likewise `files`. `hasOtherKeys` records
whether the dictionary holds any further keys, which only matters for its
truthiness test in `get_pull_request_diff`. -/
structure DiffData where
  summary : Option DiffSummary := none
  files : Option (List DiffFile) := none
  hasOtherKeys : Bool := false
  deriving DecidableEq, Repr

/-- Python truthiness of the payload dictionary: a dict is truthy iff it is
non-empty. -/
def DiffData.isTruthy (d : DiffData) : Bool :=
  d.summary.isSome || d.files.isSome || d.hasOtherKeys

/-- Embedding of the dataclass `PullRequest` of
`src/models/app/pull_request.py`, with its field defaults. Timestamps are
opaque here (no arithmetic is done on them), kept as optional strings. -/
structure PullRequest where
  id : String
  title : String
  status : String := "OPEN"
  author : Option String := none
  repository_name : Option String := none
  source_branch : Option String := none
  target_branch : Option String := none
  created_at : Option String := none
  updated_at : Option String := none
  lines_added : Int := 0
  lines_deleted : Int := 0
  total_changes : Int := 0
  deriving DecidableEq, Repr

/-- Embedding of `PullRequest.update_diff_stats`: with a `summary` key the
three counters are copied verbatim from the summary (missing sub-keys
default to 0); otherwise they are summed over `diff_data.get("files", [])`
and `total_changes` is set to the sum of the two. The Python method mutates
`self` in place; the embedding returns the updated record. -/
def PullRequest.update_diff_stats (pr : PullRequest) (diff_data : DiffData) : PullRequest :=
  match diff_data.summary with
  | some summary =>
      { pr with
        lines_added := summary.lines_added.getD 0
        lines_deleted := summary.lines_deleted.getD 0
        total_changes := summary.total_changes.getD 0 }
  | none =>
      let files := diff_data.files.getD []
      let added := (files.map (fun f => f.lines_added.getD 0)).sum
      let deleted := (files.map (fun f => f.lines_deleted.getD 0)).sum
      { pr with
        lines_added := added
        lines_deleted := deleted
        total_changes := added + deleted }

/-- The vendor SDK client used by `PullRequestService`, as an external
collaborator: `get_pull_requests` is the listing endpoint (repository OCID
and translated filter dictionary in, one domain object per returned row
out, the `PullRequest(**pr_data)` construction included), and
`get_commit_diff` fetches a diff payload and may raise. Its first argument
is optional because `list_pull_requests` passes `pull_request.repository_name`,
which may be `None`. -/
structure DevOpsClient where
  get_pull_requests : String → List (String × OciVal) → List PullRequest
  get_commit_diff : Option String → String → Except String DiffData

/-- Embedding of `PullRequestService`: the client plus the repository
name → OCID mapping loaded from configuration (`get_repo_ocid_mapping`),
as an association list. -/
structure PullRequestService where
  devops_client : DevOpsClient
  repo_mapping : List (String × String)

/-- Embedding of `PullRequestService.get_pull_requests`: look the repository
name up in the mapping, raising `ValueError` (`Except.error`) when absent,
then call the client with the translated filter and build the domain
objects. -/
def PullRequestService.get_pull_requests (svc : PullRequestService) (repo : String)
    (filters : PullRequestFilter) : Except String (List PullRequest) :=
  match svc.repo_mapping.lookup repo with
  | none => .error ("Repository " ++ repo ++ " not found in configuration.")
  | some repo_id => .ok (svc.devops_client.get_pull_requests repo_id filters.to_oci)

/-- Embedding of `PullRequestService.get_pull_request_diff`: fetch the raw
payload; when it is truthy and has no `summary` key, attach a summary whose
counters are summed over `files` with `total_changes` the sum of the two;
otherwise return the payload unchanged. A client error propagates. -/
def PullRequestService.get_pull_request_diff (svc : PullRequestService)
    (repository_id : Option String) (pull_request_id : String) : Except String DiffData :=
  match svc.devops_client.get_commit_diff repository_id pull_request_id with
  | .error e => .error e
  | .ok diff_data =>
    if diff_data.isTruthy && diff_data.summary.isNone then
      let files := diff_data.files.getD []
      let lines_added := (files.map (fun f => f.lines_added.getD 0)).sum
      let lines_deleted := (files.map (fun f => f.lines_deleted.getD 0)).sum
      .ok { diff_data with
        summary := some
          { lines_added := some lines_added
            lines_deleted := some lines_deleted
            total_changes := some (lines_added + lines_deleted) } }
    else
      .ok diff_data

/-- The first loop of `list_pull_requests`: extend the accumulator with each
repository listing, and on `ValueError` (unknown repository) log and
continue with the remaining names. -/
def PullRequestService.listLoop (svc : PullRequestService) (filters : PullRequestFilter) :
    List String → List PullRequest → List PullRequest
  | [], all_pull_requests => all_pull_requests
  | repo :: rest, all_pull_requests =>
    match svc.get_pull_requests repo filters with
    | .ok repo_pull_requests => svc.listLoop filters rest (all_pull_requests ++ repo_pull_requests)
    | .error _ => svc.listLoop filters rest all_pull_requests

/-- The second loop of `list_pull_requests`: for every accumulated pull
request, fetch its diff keyed by `(repository_name, id)` and apply
`update_diff_stats`. The loop has no exception handling, so a failing diff
fetch propagates and nothing is returned. -/
def PullRequestService.enrichLoop (svc : PullRequestService) :
    List PullRequest → Except String (List PullRequest)
  | [] => .ok []
  | pull_request :: rest =>
    match svc.get_pull_request_diff pull_request.repository_name pull_request.id with
    | .error e => .error e
    | .ok diff_data =>
      match svc.enrichLoop rest with
      | .error e => .error e
      | .ok rest_enriched => .ok (pull_request.update_diff_stats diff_data :: rest_enriched)

/-- Embedding of `PullRequestService.list_pull_requests`: build the filter
from the keyword arguments, accumulate per-repository listings (skipping
unknown names), then enrich every accumulated pull request with diff
statistics and return the sequence. -/
def PullRequestService.list_pull_requests (svc : PullRequestService) (repos : List String)
    (kwargs : ListKwargs) : Except String (List PullRequest) :=
  let filters := PullRequestFilter.ofKwargs kwargs
  let all_pull_requests := svc.listLoop filters repos []
  svc.enrichLoop all_pull_requests

/-- The result contributed by one repository in the accumulation loop: its
listing when the name resolves, nothing when it does not. -/
def PullRequestService.repoResult (svc : PullRequestService) (filters : PullRequestFilter)
    (repo : String) : List PullRequest :=
  match svc.get_pull_requests repo filters with
  | .ok repo_pull_requests => repo_pull_requests
  | .error _ => []

/-!
Embedding of `src/infrastructure/oci_error_handling.py` and the write
operations of `src/services/devops_service.py`. Decoration is first-class
in Python, so this part embeds a tiny universe of the Python values in
play — the `handle_oci_errors` factory, the `decorator` and `wrapper`
closures it builds, bound methods, and the undecorated method bodies —
together with a call semantics that checks positional arity, exactly as
the interpreter does.
-/

mutual
/-- A raised Python exception: `oci.exceptions.ServiceError` from the
provider, the translated `OCIServiceError` (carrying the resolved
operation name and the original error), or a `TypeError` from calling an
object with the wrong number of arguments. -/
inductive PyExc where
  | serviceError (message : String)
  | ociServiceError (operation : PyVal) (original : PyExc)
  | typeError (message : String)

/-- The Python values involved in decoration. `innerFn name arity outcome`
is an undecorated method body: calling it with `arity` positional
arguments produces `outcome`, the result of its interaction with the
provider client (a normal return or a raised `ServiceError`). -/
inductive PyVal where
  | pyNone
  | str (s : String)
  | obj (name : String)
  | handleOciErrorsFn
  | decoratorFn (operation_name : PyVal)
  | wrapperFn (operation_name : PyVal) (func_name : String) (func : PyVal)
  | boundMethod (self : PyVal) (func : PyVal)
  | innerFn (func_name : String) (arity : Nat) (outcome : ExceptRes)

/-- The result of evaluating a Python call: a value or a raised exception. -/
inductive ExceptRes where
  | ok (v : PyVal)
  | raise (e : PyExc)
end

/-- `func.__name__` for the function values of this universe. -/
def PyVal.funcNameOf : PyVal → String
  | .innerFn n _ _ => n
  | .wrapperFn _ n _ => n
  | _ => "unknown"

/-- Python truthiness for the values of this universe: `None` and the empty
string are falsy, everything else (functions included) is truthy. -/
def PyVal.truthy : PyVal → Bool
  | .pyNone => false
  | .str s => !s.isEmpty
  | _ => true

/-- Python `a or b`. -/
def pyOr (a b : PyVal) : PyVal := if a.truthy then a else b

/-- The call semantics. `handle_oci_errors(operation_name=None)` accepts at
most one argument and returns its `decorator` closure; `decorator(func)`
accepts exactly one argument and returns `wrapper` (closing over
`operation_name` and `func`); `wrapper(*args)` runs `func`, and when `func`
raises `ServiceError` re-raises it as `OCIServiceError` with
`op_name = operation_name or func.__name__`, any other exception
propagating unchanged; a method body checks its positional arity; a bound
method prepends `self`. Calling a non-callable raises `TypeError`. -/
def PyVal.call : PyVal → List PyVal → ExceptRes
  | .handleOciErrorsFn, [] => .ok (.decoratorFn .pyNone)
  | .handleOciErrorsFn, [v] => .ok (.decoratorFn v)
  | .handleOciErrorsFn, _ =>
    .raise (.typeError "handle_oci_errors takes at most 1 argument")
  | .decoratorFn operation_name, [f] =>
    .ok (.wrapperFn operation_name f.funcNameOf f)
  | .decoratorFn _, _ =>
    .raise (.typeError "decorator takes 1 positional argument")
  | .wrapperFn operation_name func_name func, args =>
    match func.call args with
    | .ok v => .ok v
    | .raise (.serviceError m) =>
      .raise (.ociServiceError (pyOr operation_name (.str func_name)) (.serviceError m))
    | .raise e => .raise e
  | .innerFn _ arity outcome, args =>
    if args.length = arity then outcome
    else .raise (.typeError "wrong number of positional arguments")
  | .boundMethod self func, args => func.call (self :: args)
  | _, _ => .raise (.typeError "object is not callable")

/-- Evaluating `@handle_oci_errors` bare above a method body, as written in
`devops_service.py`: the class attribute becomes the value of
`handle_oci_errors(func)`. -/
def bareDecorated (func : PyVal) : ExceptRes :=
  PyVal.call .handleOciErrorsFn [func]

/-- Evaluating `@handle_oci_errors()` above a method body — the usage the
factory is written for: the class attribute becomes the value of
`handle_oci_errors()(func)`. -/
def factoryDecorated (func : PyVal) : ExceptRes :=
  match PyVal.call .handleOciErrorsFn [] with
  | .ok dec => dec.call [func]
  | .raise e => .raise e

/-- Calling a method on an instance: look up the class attribute, bind
`self`, apply the arguments. -/
def callMethod (classAttr : ExceptRes) (self : PyVal) (args : List PyVal) : ExceptRes :=
  match classAttr with
  | .ok f => PyVal.call (.boundMethod self f) args
  | .raise e => .raise e

namespace DevOpsService

/-- The body of `DevOpsService.merge(self, pr_id)` (arity 2): its
interaction with the provider client is abstracted as `outcome`. -/
def mergeBody (outcome : ExceptRes) : PyVal := .innerFn "merge" 2 outcome

/-- The body of `DevOpsService.approve(self, pr_id)` (arity 2). -/
def approveBody (outcome : ExceptRes) : PyVal := .innerFn "approve" 2 outcome

/-- The body of `DevOpsService.create_pull_request(self, content)`
(arity 2). -/
def createPullRequestBody (outcome : ExceptRes) : PyVal :=
  .innerFn "create_pull_request" 2 outcome

/-- `service.merge(pr_id)` as the source defines it: the class attribute is
the bare-decorated body. -/
def merge (outcome : ExceptRes) (pr_id : String) : ExceptRes :=
  callMethod (bareDecorated (mergeBody outcome)) (.obj "DevOpsService") [.str pr_id]

/-- `service.approve(pr_id)` as the source defines it. -/
def approve (outcome : ExceptRes) (pr_id : String) : ExceptRes :=
  callMethod (bareDecorated (approveBody outcome)) (.obj "DevOpsService") [.str pr_id]

/-- `service.create_pull_request(content)` as the source defines it. -/
def create_pull_request (outcome : ExceptRes) (content : PyVal) : ExceptRes :=
  callMethod (bareDecorated (createPullRequestBody outcome)) (.obj "DevOpsService") [content]

end DevOpsService

/-- Projection of a `PullRequest` onto its non-counter fields: used to state
that enrichment touches nothing but the three counters. -/
def stripCounters (pr : PullRequest) : PullRequest :=
  { pr with lines_added := 0, lines_deleted := 0, total_changes := 0 }

/-! Concrete instances used to evaluate the theorems on closed inputs. -/

def prA1 : PullRequest := { id := "a1", title := "A one", repository_name := some "ra" }

def prA2 : PullRequest := { id := "a2", title := "A two", repository_name := some "ra" }

def prB1 : PullRequest := { id := "b1", title := "B one", repository_name := some "rb" }

/-- A client with no data and no failures. -/
def emptyClient : DevOpsClient :=
  { get_pull_requests := fun _ _ => []
    get_commit_diff := fun _ _ => .ok {} }

/-- A service whose configuration maps no repository names. -/
def svcNoRepos : PullRequestService :=
  { devops_client := emptyClient, repo_mapping := [] }

/-- A client serving two repositories with empty diffs. -/
def twoRepoClient : DevOpsClient :=
  { get_pull_requests := fun rid _ =>
      if rid = "ra" then [prA1, prA2] else if rid = "rb" then [prB1] else []
    get_commit_diff := fun _ _ => .ok {} }

/-- A service mapping names `a` and `b` to the two served repositories. -/
def twoRepoSvc : PullRequestService :=
  { devops_client := twoRepoClient, repo_mapping := [("a", "ra"), ("b", "rb")] }

/-- A client whose listing succeeds but whose diff fetch always raises. -/
def failingDiffClient : DevOpsClient :=
  { get_pull_requests := fun _ _ => [prA1]
    get_commit_diff := fun _ _ => .error "diff fetch failed" }

/-- A service built on `failingDiffClient`. -/
def failingDiffSvc : PullRequestService :=
  { devops_client := failingDiffClient, repo_mapping := [("a", "ra")] }

theorem update_diff_stats_stripCounters (pr : PullRequest) (d : DiffData) :
    stripCounters (pr.update_diff_stats d) = stripCounters pr := by
  cases h : d.summary <;> simp [PullRequest.update_diff_stats, stripCounters, h]

/-- C3: the translation of `PullRequestFilter(status="open", limit=5,
author=None)` is exactly `\x7b"lifecycle_details": "OPEN", "limit": 5\x7d`:
the status value is upper-cased on construction, the field names are
renamed through the fixed mapping, and a `None`-valued field (here
`author`, whose target key is `created_by`) is omitted. -/
theorem filter_to_oci_translation :
    (PullRequestFilter.make "open" (some 5) none).to_oci
      = [("lifecycle_details", OciVal.str "OPEN"), ("limit", OciVal.int 5)]
    ∧ (∀ (st : String) (l : Option Int) (a : Option String),
        (PullRequestFilter.make st l a).status = pyUpper st)
    ∧ (∀ (st : String) (l : Option Int),
        ((PullRequestFilter.make st l none).to_oci).lookup "created_by" = none) := by
  refine ⟨by decide, fun st l a => rfl, fun st l => ?_⟩
  cases l <;> simp [PullRequestFilter.make, PullRequestFilter.to_oci, List.lookup]

/-- C4: on a diff payload without a `summary` key, `update_diff_stats`
derives `lines_added` and `lines_deleted` by summation over the `files`
list and `total_changes` as their sum; on the two-file example payload the
result is 5 added, 1 deleted, 6 total. -/
theorem update_diff_stats_files_sum :
    (∀ (pr : PullRequest) (files : List DiffFile) (other : Bool),
      (pr.update_diff_stats { summary := none, files := some files, hasOtherKeys := other }).lines_added
          = (files.map (fun f => f.lines_added.getD 0)).sum
        ∧ (pr.update_diff_stats { summary := none, files := some files, hasOtherKeys := other }).lines_deleted
          = (files.map (fun f => f.lines_deleted.getD 0)).sum
        ∧ (pr.update_diff_stats { summary := none, files := some files, hasOtherKeys := other }).total_changes
          = (files.map (fun f => f.lines_added.getD 0)).sum
            + (files.map (fun f => f.lines_deleted.getD 0)).sum)
    ∧ (∀ pr : PullRequest,
        (pr.update_diff_stats
          { summary := none
            files := some [{ lines_added := some 3, lines_deleted := some 1 },
                           { lines_added := some 2, lines_deleted := some 0 }] }).lines_added = 5
        ∧ (pr.update_diff_stats
          { summary := none
            files := some [{ lines_added := some 3, lines_deleted := some 1 },
                           { lines_added := some 2, lines_deleted := some 0 }] }).lines_deleted = 1
        ∧ (pr.update_diff_stats
          { summary := none
            files := some [{ lines_added := some 3, lines_deleted := some 1 },
                           { lines_added := some 2, lines_deleted := some 0 }] }).total_changes = 6) := by
  constructor
  · intro pr files other
    refine ⟨rfl, rfl, rfl⟩
  · intro pr
    refine ⟨rfl, rfl, rfl⟩

/-- C5: on a diff payload that has a `summary` key, `update_diff_stats`
copies the three counters verbatim from the summary, ignoring any `files`
entry also present; in particular the 10/4/14 example summary yields
exactly those values. -/
theorem update_diff_stats_summary_verbatim :
    (∀ (pr : PullRequest) (la ld tc : Int) (files : Option (List DiffFile)) (other : Bool),
      (pr.update_diff_stats
        { summary := some { lines_added := some la, lines_deleted := some ld, total_changes := some tc }
          files := files, hasOtherKeys := other }).lines_added = la
      ∧ (pr.update_diff_stats
        { summary := some { lines_added := some la, lines_deleted := some ld, total_changes := some tc }
          files := files, hasOtherKeys := other }).lines_deleted = ld
      ∧ (pr.update_diff_stats
        { summary := some { lines_added := some la, lines_deleted := some ld, total_changes := some tc }
          files := files, hasOtherKeys := other }).total_changes = tc)
    ∧ (∀ (pr : PullRequest) (files : Option (List DiffFile)),
      (pr.update_diff_stats
        { summary := some { lines_added := some 10, lines_deleted := some 4, total_changes := some 14 }
          files := files }).lines_added = 10
      ∧ (pr.update_diff_stats
        { summary := some { lines_added := some 10, lines_deleted := some 4, total_changes := some 14 }
          files := files }).lines_deleted = 4
      ∧ (pr.update_diff_stats
        { summary := some { lines_added := some 10, lines_deleted := some 4, total_changes := some 14 }
          files := files }).total_changes = 14) := by
  exact ⟨fun pr la ld tc files other => ⟨rfl, rfl, rfl⟩, fun pr files => ⟨rfl, rfl, rfl⟩⟩

/-- C6 (counterexample): `update_diff_stats` copies an inconsistent summary
verbatim, so the invariant `total_changes = lines_added + lines_deleted`
fails after enrichment with the payload
`summary = \x7blines_added: 1, lines_deleted: 1, total_changes: 5\x7d`. -/
theorem diff_invariant_counterexample :
    ¬ ((({ id := "pr-1", title := "t" } : PullRequest).update_diff_stats
          { summary := some { lines_added := some 1, lines_deleted := some 1, total_changes := some 5 } }).total_changes
        = (({ id := "pr-1", title := "t" } : PullRequest).update_diff_stats
          { summary := some { lines_added := some 1, lines_deleted := some 1, total_changes := some 5 } }).lines_added
          + (({ id := "pr-1", title := "t" } : PullRequest).update_diff_stats
          { summary := some { lines_added := some 1, lines_deleted := some 1, total_changes := some 5 } }).lines_deleted) := by
  decide

/-- C6 (amended): before enrichment the three counters of a freshly
constructed `PullRequest` default to zero; after `update_diff_stats` the
invariant `total_changes = lines_added + lines_deleted` holds whenever the
payload has no `summary` key (counters derived from `files`), and whenever
its summary is internally consistent — a payload whose summary has
`total_changes` different from the sum of its other two counters is copied
verbatim and breaks the invariant. -/
theorem diff_invariant_amended :
    (∀ i t : String, ({ id := i, title := t } : PullRequest).lines_added = 0
      ∧ ({ id := i, title := t } : PullRequest).lines_deleted = 0
      ∧ ({ id := i, title := t } : PullRequest).total_changes = 0)
    ∧ (∀ (pr : PullRequest) (d : DiffData), d.summary = none →
        (pr.update_diff_stats d).total_changes
          = (pr.update_diff_stats d).lines_added + (pr.update_diff_stats d).lines_deleted)
    ∧ (∀ (pr : PullRequest) (s : DiffSummary) (files : Option (List DiffFile)) (other : Bool),
        s.total_changes.getD 0 = s.lines_added.getD 0 + s.lines_deleted.getD 0 →
        (pr.update_diff_stats { summary := some s, files := files, hasOtherKeys := other }).total_changes
          = (pr.update_diff_stats { summary := some s, files := files, hasOtherKeys := other }).lines_added
            + (pr.update_diff_stats { summary := some s, files := files, hasOtherKeys := other }).lines_deleted) := by
  refine ⟨fun i t => ⟨rfl, rfl, rfl⟩, fun pr d h => ?_, fun pr s files other h => ?_⟩
  · simp [PullRequest.update_diff_stats, h]
  · simpa [PullRequest.update_diff_stats] using h

/-- C6 (witness for the amended theorem). -/
theorem diff_invariant_amended_witness :
    ({ id := "pr-1", title := "t" } : PullRequest).lines_added = 0
    ∧ ((({ id := "pr-1", title := "t" } : PullRequest).update_diff_stats
        { files := some [{ lines_added := some 3, lines_deleted := some 1 }] }).total_changes
      = (({ id := "pr-1", title := "t" } : PullRequest).update_diff_stats
        { files := some [{ lines_added := some 3, lines_deleted := some 1 }] }).lines_added
        + (({ id := "pr-1", title := "t" } : PullRequest).update_diff_stats
        { files := some [{ lines_added := some 3, lines_deleted := some 1 }] }).lines_deleted)
    ∧ ((({ id := "pr-1", title := "t" } : PullRequest).update_diff_stats
        { summary := some { lines_added := some 10, lines_deleted := some 4, total_changes := some 14 } }).total_changes
      = (({ id := "pr-1", title := "t" } : PullRequest).update_diff_stats
        { summary := some { lines_added := some 10, lines_deleted := some 4, total_changes := some 14 } }).lines_added
        + (({ id := "pr-1", title := "t" } : PullRequest).update_diff_stats
        { summary := some { lines_added := some 10, lines_deleted := some 4, total_changes := some 14 } }).lines_deleted) :=
  ⟨(diff_invariant_amended.1 "pr-1" "t").1,
   diff_invariant_amended.2.1 { id := "pr-1", title := "t" }
     { files := some [{ lines_added := some 3, lines_deleted := some 1 }] } rfl,
   diff_invariant_amended.2.2 { id := "pr-1", title := "t" }
     { lines_added := some 10, lines_deleted := some 4, total_changes := some 14 } none false
     (by decide)⟩

/-- C9: `update_diff_stats` is the identity on every field other than the
three counters — the frame of diff enrichment is exactly
`lines_added`, `lines_deleted`, `total_changes`. -/
theorem update_diff_stats_frame (pr : PullRequest) (d : DiffData) :
    (pr.update_diff_stats d).id = pr.id
    ∧ (pr.update_diff_stats d).title = pr.title
    ∧ (pr.update_diff_stats d).status = pr.status
    ∧ (pr.update_diff_stats d).author = pr.author
    ∧ (pr.update_diff_stats d).repository_name = pr.repository_name
    ∧ (pr.update_diff_stats d).source_branch = pr.source_branch
    ∧ (pr.update_diff_stats d).target_branch = pr.target_branch
    ∧ (pr.update_diff_stats d).created_at = pr.created_at
    ∧ (pr.update_diff_stats d).updated_at = pr.updated_at := by
  cases h : d.summary <;> simp [PullRequest.update_diff_stats, h]

/-- C7: as written, `@handle_oci_errors` is applied without parentheses to
`merge`, `approve` and `create_pull_request`, so each class attribute is
the factory's inner `decorator` closure; any call of one of these methods
reaches `decorator` with two positional arguments (`self` plus the call
argument) and raises `TypeError`, whatever the provider does — the
`OCIServiceError` translation is never reached. With the intended
`@handle_oci_errors()` decoration, a provider `ServiceError` is re-raised
as `OCIServiceError` carrying the operation name and the original error. -/
theorem write_operations_bare_decorator_bug (outcome : ExceptRes) (m pr_id : String)
    (content : PyVal) :
    DevOpsService.merge outcome pr_id
      = .raise (.typeError "decorator takes 1 positional argument")
    ∧ DevOpsService.approve outcome pr_id
      = .raise (.typeError "decorator takes 1 positional argument")
    ∧ DevOpsService.create_pull_request outcome content
      = .raise (.typeError "decorator takes 1 positional argument")
    ∧ callMethod (factoryDecorated (DevOpsService.mergeBody (.raise (.serviceError m))))
        (.obj "DevOpsService") [.str pr_id]
      = .raise (.ociServiceError (.str "merge") (.serviceError m)) :=
  ⟨rfl, rfl, rfl, rfl⟩

/-- C10: with no keyword arguments, `PullRequestFilter(**kwargs)` is the
default filter (status `"OPEN"`, limit `10`, author `None`), its
translation is exactly `\x7b"lifecycle_details": "OPEN", "limit": 10\x7d`,
and the listing call for any resolved repository passes exactly that
translated filter to the client. -/
theorem default_filter_translation :
    PullRequestFilter.ofKwargs {} = { status := "OPEN", limit := some 10, author := none }
    ∧ (PullRequestFilter.ofKwargs {}).to_oci
        = [("lifecycle_details", OciVal.str "OPEN"), ("limit", OciVal.int 10)]
    ∧ (∀ (svc : PullRequestService) (repo rid : String),
        svc.repo_mapping.lookup repo = some rid →
        svc.get_pull_requests repo (PullRequestFilter.ofKwargs {})
          = .ok (svc.devops_client.get_pull_requests rid
              [("lifecycle_details", OciVal.str "OPEN"), ("limit", OciVal.int 10)])) := by
  refine ⟨by decide, by decide, fun svc repo rid h => ?_⟩
  simp only [PullRequestService.get_pull_requests, h]
  rfl

/-- C10 (witness): a resolved repository of the two-repository service
receives exactly the default translated filter. -/
theorem default_filter_translation_witness :
    twoRepoSvc.get_pull_requests "a" (PullRequestFilter.ofKwargs {})
      = .ok (twoRepoSvc.devops_client.get_pull_requests "ra"
          [("lifecycle_details", OciVal.str "OPEN"), ("limit", OciVal.int 10)]) :=
  default_filter_translation.2.2 twoRepoSvc "a" "ra" rfl

theorem listLoop_append (svc : PullRequestService) (filters : PullRequestFilter)
    (repos : List String) (acc : List PullRequest) :
    svc.listLoop filters repos acc = acc ++ svc.listLoop filters repos [] := by
  induction repos generalizing acc with
  | nil => simp [PullRequestService.listLoop]
  | cons r rest ih =>
    cases h : svc.get_pull_requests r filters with
    | ok l =>
      simp only [PullRequestService.listLoop, h, List.nil_append]
      rw [ih (acc ++ l), ih l, List.append_assoc]
    | error e =>
      simp only [PullRequestService.listLoop, h]
      exact ih acc

theorem listLoop_eq_flatten (svc : PullRequestService) (filters : PullRequestFilter)
    (repos : List String) :
    svc.listLoop filters repos [] = (repos.map (svc.repoResult filters)).flatten := by
  induction repos with
  | nil => rfl
  | cons r rest ih =>
    cases h : svc.get_pull_requests r filters with
    | ok l =>
      simp only [PullRequestService.listLoop, h, List.nil_append, List.map_cons, List.flatten_cons]
      rw [listLoop_append, ih]
      simp [PullRequestService.repoResult, h]
    | error e =>
      simp only [PullRequestService.listLoop, h, List.map_cons, List.flatten_cons]
      rw [ih]
      simp [PullRequestService.repoResult, h]

theorem repoResult_of_unresolved (svc : PullRequestService) (filters : PullRequestFilter)
    (r : String) (h : svc.repo_mapping.lookup r = none) :
    svc.repoResult filters r = [] := by
  simp [PullRequestService.repoResult, PullRequestService.get_pull_requests, h]

theorem flatten_map_filter {α β : Type} (f : α → List β) (p : α → Bool) (l : List α)
    (h : ∀ a ∈ l, p a = false → f a = []) :
    ((l.filter p).map f).flatten = (l.map f).flatten := by
  induction l with
  | nil => rfl
  | cons a rest ih =>
    have ih' := ih (fun x hx hpx => h x (List.mem_cons_of_mem _ hx) hpx)
    by_cases hp : p a
    · simp [List.filter_cons, hp, ih']
    · have ha : f a = [] := h a (List.mem_cons_self _ _) (by simpa using hp)
      simp [List.filter_cons, hp, ha, ih']

/-- C1: `list_pull_requests` skips every repository name that the
configuration mapping does not resolve and returns the results of the
remaining names, and when no requested name resolves it returns the empty
sequence rather than an error. -/
theorem list_pull_requests_skips_unresolved (svc : PullRequestService)
    (repos : List String) (kwargs : ListKwargs) :
    svc.list_pull_requests repos kwargs
      = svc.list_pull_requests (repos.filter fun r => (svc.repo_mapping.lookup r).isSome) kwargs
    ∧ ((∀ r ∈ repos, svc.repo_mapping.lookup r = none) →
        svc.list_pull_requests repos kwargs = .ok []) := by
  constructor
  · simp only [PullRequestService.list_pull_requests]
    rw [listLoop_eq_flatten, listLoop_eq_flatten, flatten_map_filter]
    intro r hr hp
    cases hl : svc.repo_mapping.lookup r with
    | none => exact repoResult_of_unresolved svc _ r hl
    | some v => rw [hl] at hp; simp at hp
  · intro h
    simp only [PullRequestService.list_pull_requests]
    rw [listLoop_eq_flatten]
    have hj : (repos.map (svc.repoResult (PullRequestFilter.ofKwargs kwargs))).flatten = [] := by
      rw [List.flatten_eq_nil_iff]
      intro l hl
      obtain ⟨r, hr, rfl⟩ := List.mem_map.mp hl
      exact repoResult_of_unresolved svc _ r (h r hr)
    rw [hj]
    rfl

/-- C1 (witness): with an empty configuration mapping, aggregation over two
names returns the empty sequence. -/
theorem list_pull_requests_skips_unresolved_witness :
    svcNoRepos.list_pull_requests ["a", "b"] {} = .ok [] :=
  (list_pull_requests_skips_unresolved svcNoRepos ["a", "b"] {}).2 (fun _ _ => rfl)

theorem enrichLoop_ok_stripCounters (svc : PullRequestService) :
    ∀ l out : List PullRequest, svc.enrichLoop l = .ok out →
      out.map stripCounters = l.map stripCounters := by
  intro l
  induction l with
  | nil =>
    intro out h
    simp only [PullRequestService.enrichLoop] at h
    cases h
    rfl
  | cons pr rest ih =>
    intro out h
    simp only [PullRequestService.enrichLoop] at h
    cases hd : svc.get_pull_request_diff pr.repository_name pr.id with
    | error e => rw [hd] at h; cases h
    | ok d =>
      rw [hd] at h
      cases hr : svc.enrichLoop rest with
      | error e => rw [hr] at h; cases h
      | ok rest_out =>
        rw [hr] at h
        cases h
        simp [update_diff_stats_stripCounters, ih rest_out hr]

/-- C2: when every requested name resolves, the returned sequence is the
concatenation, in request order, of the per-repository listings in
provider order — enrichment aside, which only fills the three counters —
and its length is the sum of the per-repository result counts. -/
theorem list_pull_requests_concat_order (svc : PullRequestService) (repos : List String)
    (kwargs : ListKwargs) (out : List PullRequest)
    (hne : repos ≠ [])
    (hres : ∀ r ∈ repos, (svc.repo_mapping.lookup r).isSome)
    (hok : svc.list_pull_requests repos kwargs = .ok out) :
    out.length
      = (repos.map fun r => (svc.repoResult (PullRequestFilter.ofKwargs kwargs) r).length).sum
    ∧ out.map stripCounters
      = ((repos.map (svc.repoResult (PullRequestFilter.ofKwargs kwargs))).flatten).map stripCounters := by
  have hne' := hne
  have hres' := hres
  simp only [PullRequestService.list_pull_requests] at hok
  rw [listLoop_eq_flatten] at hok
  have hmap := enrichLoop_ok_stripCounters svc _ out hok
  refine ⟨?_, hmap⟩
  have hlen := congrArg List.length hmap
  simp only [List.length_map] at hlen
  rw [hlen, List.length_flatten, List.map_map]
  rfl

/-- C2 (witness): over the two-repository service the `list` result for
`["a", "b"]` has three rows, in repository-then-provider order. -/
theorem list_pull_requests_concat_order_witness :
    ([prA1, prA2, prB1] : List PullRequest).length
      = ((["a", "b"].map fun r =>
          (twoRepoSvc.repoResult (PullRequestFilter.ofKwargs {}) r).length)).sum
    ∧ ([prA1, prA2, prB1] : List PullRequest).map stripCounters
      = (((["a", "b"].map (twoRepoSvc.repoResult (PullRequestFilter.ofKwargs {}))).flatten).map
          stripCounters) :=
  list_pull_requests_concat_order twoRepoSvc ["a", "b"] {} [prA1, prA2, prB1]
    (by decide) (by decide) (by rfl)

theorem enrichLoop_error_of_first_failure (svc : PullRequestService)
    (l₁ : List PullRequest) (pr : PullRequest) (l₂ : List PullRequest) (e : String)
    (hpre : ∀ q ∈ l₁, ∃ d, svc.get_pull_request_diff q.repository_name q.id = .ok d)
    (hfail : svc.get_pull_request_diff pr.repository_name pr.id = .error e) :
    svc.enrichLoop (l₁ ++ pr :: l₂) = .error e := by
  induction l₁ with
  | nil => simp [PullRequestService.enrichLoop, hfail]
  | cons q rest ih =>
    obtain ⟨d, hd⟩ := hpre q (List.mem_cons_self q _)
    have ih' := ih (fun x hx => hpre x (List.mem_cons_of_mem _ hx))
    simp [PullRequestService.enrichLoop, hd, ih']

/-- C8: when the diff fetch fails for an accumulated pull request during
the enrichment pass, `list_pull_requests` propagates that error and
returns nothing — no partial result with the already-listed pull requests
is produced, in contrast to the per-repository skip during listing. -/
theorem diff_fetch_failure_fatal (svc : PullRequestService) (repos : List String)
    (kwargs : ListKwargs) (l₁ : List PullRequest) (pr : PullRequest) (l₂ : List PullRequest)
    (e : String)
    (hacc : svc.listLoop (PullRequestFilter.ofKwargs kwargs) repos [] = l₁ ++ pr :: l₂)
    (hpre : ∀ q ∈ l₁, ∃ d, svc.get_pull_request_diff q.repository_name q.id = .ok d)
    (hfail : svc.get_pull_request_diff pr.repository_name pr.id = .error e) :
    svc.list_pull_requests repos kwargs = .error e := by
  simp only [PullRequestService.list_pull_requests]
  rw [hacc]
  exact enrichLoop_error_of_first_failure svc l₁ pr l₂ e hpre hfail

/-- C8 (witness): one resolved repository with one listed pull request and
a failing diff fetch makes the whole aggregation fail with that error. -/
theorem diff_fetch_failure_fatal_witness :
    failingDiffSvc.list_pull_requests ["a"] {} = .error "diff fetch failed" :=
  diff_fetch_failure_fatal failingDiffSvc ["a"] {} [] prA1 [] "diff fetch failed"
    rfl (fun q hq => absurd hq (List.not_mem_nil q)) rfl

end TasksCli
